import Mathlib

/-!
Verification development for the stock-monitoring bot repository.

Shallow embedding of the Python source into Lean 4:
monetary and quantity fields use exact rational arithmetic, mirroring the
Decimal arithmetic of the source; wall-clock timestamps become explicit
integer or natural-number parameters (seconds); fallible constructors
(pydantic validation) return Option; external effects (market-data fetch,
Discord delivery, hex decoding, Ed25519 verification, message formatting,
uuid generation) are uninterpreted function parameters, so theorems
quantifying over them hold for every possible behavior of the effect.

Fields that no claim touches and that only record wall-clock side effects
(created_at, updated_at, triggered_at, uuid identifiers, free-text notes)
are omitted from the embedded records; every validated or computed field is
kept.
-/

namespace StockBot

/-! Domain model, from models/stock.py -/

/-- Python str.lower restricted to the ASCII range of the header names
and symbols this system handles. -/
def strLower (s : String) : String := String.mk (s.data.map Char.toLower)

/-- Python str.upper restricted to the ASCII range of the symbols this
system handles. -/
def strUpper (s : String) : String := String.mk (s.data.map Char.toUpper)

/-- The common whitespace characters stripped by Python str.strip. -/
def isSpaceChar (c : Char) : Bool := c = ' ' ∨ c = '\t' ∨ c = '\n' ∨ c = '\r'

/-- Python str.strip: drop leading and trailing whitespace. -/
def strTrim (s : String) : String :=
  String.mk (((s.data.dropWhile isSpaceChar).reverse.dropWhile isSpaceChar).reverse)

/-- Whether a message starts with the bang command prefix. -/
def startsWithBang (s : String) : Bool :=
  match s.data with
  | c :: _ => c = '!'
  | [] => false

/-- Shared symbol field validator of MonitoredStock and PortfolioHolding:
rejects an empty or whitespace-only symbol, otherwise stores the symbol
uppercased and trimmed (Python: v.upper().strip()). -/
def normalizeSymbol (v : String) : Option String :=
  if v = "" ∨ strTrim v = "" then none else some (strTrim (strUpper v))

/-- True when an optional decimal field is present and not positive
(the rejection condition of the validate_prices style validators). -/
def optNonPositive (v : Option ℚ) : Bool :=
  match v with
  | some x => decide (x ≤ 0)
  | none => false

/-- MonitoredStock record (validated fields). -/
structure MonitoredStock where
  symbol : String
  name : String
  market : String
  price_threshold_upper : Option ℚ
  price_threshold_lower : Option ℚ
  volume_threshold_multiplier : ℚ
  is_active : Bool
deriving Repr, DecidableEq

/-- MonitoredStock construction with the pydantic field validators:
symbol is normalized, both thresholds must be positive when present, the
volume multiplier must be positive. -/
def mkMonitoredStock (symbol name market : String) (upper lower : Option ℚ)
    (mult : ℚ) : Option MonitoredStock :=
  match normalizeSymbol symbol with
  | none => none
  | some s =>
    if optNonPositive upper then none
    else if optNonPositive lower then none
    else if mult ≤ 0 then none
    else some ⟨s, name, market, upper, lower, mult, true⟩

/-- StockPrice record. -/
structure StockPrice where
  symbol : String
  price : ℚ
  open_price : Option ℚ
  high_price : Option ℚ
  low_price : Option ℚ
  volume : Option ℤ
  previous_close : Option ℚ
  change_amount : Option ℚ
  change_percent : Option ℚ
deriving Repr, DecidableEq

/-- StockPrice construction with the pydantic field validators: price and
the optional price fields must be positive when present, volume must be
nonnegative when present.  The symbol field has no validator in the source
and is stored exactly as given. -/
def mkStockPrice (symbol : String) (price : ℚ) (op hi lo : Option ℚ)
    (volume : Option ℤ) (pc ca cp : Option ℚ) : Option StockPrice :=
  if price ≤ 0 then none
  else if optNonPositive op then none
  else if optNonPositive hi then none
  else if optNonPositive lo then none
  else if optNonPositive pc then none
  else if (match volume with | some v => decide (v < 0) | none => false) then none
  else some ⟨symbol, price, op, hi, lo, volume, pc, ca, cp⟩

/-- The calculate_change method: change amount and percent are derived
from previous_close only when it is present (truthy) and positive. -/
def StockPrice.calculateChange (sp : StockPrice) : StockPrice :=
  match sp.previous_close with
  | some pc =>
      if pc ≠ 0 ∧ 0 < pc then
        { sp with
          change_amount := some (sp.price - pc)
          change_percent := some ((sp.price - pc) / pc * 100) }
      else sp
  | none => sp

/-- Alert record.  The uuid alert_id and the wall-clock triggered_at are
not modeled; sent_at carries the integer timestamp set by the engine. -/
structure Alert where
  symbol : String
  alert_type : String
  message : String
  price_at_trigger : Option ℚ
  volume_at_trigger : Option ℤ
  threshold_value : Option ℚ
  is_sent : Bool
  sent_at : Option ℤ
deriving Repr, DecidableEq

/-- Alert construction with the pydantic field validator: alert_type must
be one of the four enumerated values.  The symbol field has no validator
in the source and is stored exactly as given. -/
def mkAlert (symbol alert_type message : String) (pat : Option ℚ)
    (vat : Option ℤ) (tv : Option ℚ) (is_sent : Bool) (sent_at : Option ℤ) :
    Option Alert :=
  if alert_type = "price_upper" ∨ alert_type = "price_lower" ∨
      alert_type = "volume" ∨ alert_type = "system" then
    some ⟨symbol, alert_type, message, pat, vat, tv, is_sent, sent_at⟩
  else none

/-- PortfolioHolding record (validated fields; purchase_date and notes are
not modeled). -/
structure PortfolioHolding where
  holding_id : String
  portfolio_id : String
  symbol : String
  quantity : ℤ
  purchase_price : ℚ
  is_active : Bool
deriving Repr, DecidableEq

/-- PortfolioHolding construction with the pydantic field validators:
symbol is normalized, quantity and purchase_price must be positive. -/
def mkPortfolioHolding (hid pid symbol : String) (q : ℤ) (pp : ℚ) :
    Option PortfolioHolding :=
  match normalizeSymbol symbol with
  | none => none
  | some s =>
    if q ≤ 0 then none
    else if pp ≤ 0 then none
    else some ⟨hid, pid, s, q, pp, true⟩

/-- ProfitLossCalculation record. -/
structure ProfitLossCalculation where
  holding_id : String
  symbol : String
  quantity : ℤ
  purchase_price : ℚ
  current_price : ℚ
  purchase_value : ℚ
  current_value : ℚ
  unrealized_pnl : ℚ
  unrealized_pnl_percent : ℚ
deriving Repr, DecidableEq

/-- The ProfitLossCalculation.calculate classmethod. -/
def ProfitLossCalculation.calculate (h : PortfolioHolding) (current_price : ℚ) :
    ProfitLossCalculation :=
  let purchase_value := h.purchase_price * (h.quantity : ℚ)
  let current_value := current_price * (h.quantity : ℚ)
  let unrealized_pnl := current_value - purchase_value
  let unrealized_pnl_percent := (unrealized_pnl / purchase_value) * 100
  ⟨h.holding_id, h.symbol, h.quantity, h.purchase_price, current_price,
    purchase_value, current_value, unrealized_pnl, unrealized_pnl_percent⟩

/-- Portfolio record. -/
structure PortfolioRec where
  portfolio_id : String
  user_id : String
  name : String
  description : Option String
  is_active : Bool
deriving Repr, DecidableEq

/-- PortfolioProfitLossReport record. -/
structure PortfolioProfitLossReport where
  portfolio_id : String
  user_id : String
  portfolio_name : String
  holdings : List ProfitLossCalculation
  total_purchase_value : ℚ
  total_current_value : ℚ
  total_unrealized_pnl : ℚ
  total_unrealized_pnl_percent : ℚ
deriving Repr, DecidableEq

/-- The PortfolioProfitLossReport.create_report classmethod. -/
def create_report (p : PortfolioRec) (holdings_pnl : List ProfitLossCalculation) :
    PortfolioProfitLossReport :=
  let total_purchase_value := (holdings_pnl.map (·.purchase_value)).sum
  let total_current_value := (holdings_pnl.map (·.current_value)).sum
  let total_unrealized_pnl := total_current_value - total_purchase_value
  let total_unrealized_pnl_percent :=
    if 0 < total_purchase_value then
      total_unrealized_pnl / total_purchase_value * 100
    else 0
  ⟨p.portfolio_id, p.user_id, p.name, holdings_pnl, total_purchase_value,
    total_current_value, total_unrealized_pnl, total_unrealized_pnl_percent⟩

/-! Security rate limiter, from security/rate_limiter.py.
The per-user dict entries are modeled for one fixed user: requests is the
list of recorded request timestamps (seconds) for that user, blockedUntil
models membership of the user in blocked_users. -/

/-- Outcome of one check_rate_limit call: allowed, rejected while blocked
(with the remaining block time in seconds), blocked for suspicious
activity, or rejected by one of the two soft limits. -/
inductive RLResult where
  | allowed : RLResult
  | blockedRemaining : ℤ → RLResult
  | suspiciousBlock : RLResult
  | limitMinute : RLResult
  | limitHour : RLResult
deriving Repr, DecidableEq

/-- State of the rate limiter for one user. -/
structure RLState where
  requests : List ℤ
  blockedUntil : Option ℤ
deriving Repr, DecidableEq

/-- Number of entries of a request list lying in the sliding one-minute
window ending at time t (Python: req_time > minute_ago). -/
def countMinute (l : List ℤ) (t : ℤ) : ℕ :=
  l.countP (fun e => decide (t - 60 < e))

/-- The body of check_rate_limit after the blocked-user gate: prune entries
older than one hour, count the last minute and the last hour, then apply
the suspicious threshold (20), the per-minute soft limit (10) and the
per-hour soft limit (100); only an allowed request is recorded. -/
def checkRateLimitCore (requests : List ℤ) (now : ℤ) : RLResult × RLState :=
  let pruned := requests.filter (fun t => decide (now - 3600 < t))
  let lastMinute := countMinute pruned now
  let lastHour := pruned.length
  if 20 ≤ lastMinute then
    (RLResult.suspiciousBlock, ⟨pruned, some (now + 30 * 60)⟩)
  else if 10 ≤ lastMinute then
    (RLResult.limitMinute, ⟨pruned, none⟩)
  else if 100 ≤ lastHour then
    (RLResult.limitHour, ⟨pruned, none⟩)
  else
    (RLResult.allowed, ⟨pruned ++ [now], none⟩)

/-- RateLimiter.check_rate_limit for one user at wall-clock time now. -/
def checkRateLimit (st : RLState) (now : ℤ) : RLResult × RLState :=
  match st.blockedUntil with
  | some b =>
      if now < b then (RLResult.blockedRemaining (b - now), st)
      else checkRateLimitCore st.requests now
  | none => checkRateLimitCore st.requests now

/-- A sequence of check_rate_limit calls at the given wall-clock times,
returning the per-call outcomes and the final state. -/
def runRateLimiter (st : RLState) : List ℤ → List RLResult × RLState
  | [] => ([], st)
  | t :: ts =>
      let step := checkRateLimit st t
      let rest := runRateLimiter step.2 ts
      (step.1 :: rest.1, rest.2)

/-! Alert engine, from services/alert_engine.py.
Message formatting (the _format_price_alert_message and
_format_volume_alert_message methods) is an uninterpreted function
parameter; uuid generation is not modeled. -/

/-- Transient VolumeData record. -/
structure VolumeData where
  symbol : String
  current_volume : ℤ
  average_volume : ℤ
deriving Repr, DecidableEq

/-- The volume_ratio property: current over average, 0 when the average is
not positive. -/
def VolumeData.ratioValue (vd : VolumeData) : ℚ :=
  if vd.average_volume ≤ 0 then 0
  else (vd.current_volume : ℚ) / (vd.average_volume : ℚ)

/-- AlertHistory.recent_alerts, the process-local dict from alert key to
the last-sent timestamp (seconds). -/
def AlertHist : Type := String → Option ℤ

/-- AlertHistory.should_send_alert: allowed when the key is unknown or the
previous send is older than the 30-minute duplicate-prevention window. -/
def shouldSendAlert (h : AlertHist) (key : String) (now : ℤ) : Bool :=
  match h key with
  | none => true
  | some last => decide (30 * 60 < now - last)

/-- AlertHistory.record_alert. -/
def recordAlert (h : AlertHist) (key : String) (now : ℤ) : AlertHist :=
  fun k => if k = key then some now else h k

/-- AlertHistory.cleanup_old_records: drop entries older than 24 hours. -/
def cleanupOldRecords (h : AlertHist) (now : ℤ) : AlertHist :=
  fun k =>
    match h k with
    | some t => if t < now - 24 * 3600 then none else some t
    | none => none

/-- The dedup key of process_alerts: symbol_type_threshold.  The textual
rendering of the optional threshold is an uninterpreted parameter showQ. -/
def alertKey (showQ : Option ℚ → String) (a : Alert) : String :=
  a.symbol ++ "_" ++ a.alert_type ++ "_" ++ showQ a.threshold_value

/-- AlertEngine.check_price_alerts: an upper alert when an upper threshold
is set (truthy) and the price is at or above it, then a lower alert when a
lower threshold is set (truthy) and the price is at or below it.  fmt
stands for _format_price_alert_message (stock, price, threshold label,
threshold value). -/
def checkPriceAlerts (fmt : MonitoredStock → StockPrice → String → ℚ → String)
    (stock : MonitoredStock) (cp : StockPrice) : List Alert :=
  let upperAlerts :=
    match stock.price_threshold_upper with
    | some u =>
        if u ≠ 0 ∧ u ≤ cp.price then
          [Alert.mk stock.symbol "price_upper" (fmt stock cp "上限" u)
            (some cp.price) none (some u) false none]
        else []
    | none => []
  let lowerAlerts :=
    match stock.price_threshold_lower with
    | some l =>
        if l ≠ 0 ∧ cp.price ≤ l then
          [Alert.mk stock.symbol "price_lower" (fmt stock cp "下限" l)
            (some cp.price) none (some l) false none]
        else []
    | none => []
  upperAlerts ++ lowerAlerts

/-- The _is_trading_hours gate.  Wall-clock time is modeled as seconds
since a Monday 00:00 of the naive UTC clock; the code adds a fixed nine
hours to obtain Japan time, then requires a weekday (Monday to Friday)
and a time of day inside 09:00-11:30 or 12:30-15:00, both ends included
(the comparisons in the source are non-strict). -/
def isTradingHours (now : ℕ) : Bool :=
  let jst := now + 9 * 3600
  let weekday := jst / 86400 % 7
  let tod := jst % 86400
  if 5 ≤ weekday then false
  else
    decide ((9 * 3600 ≤ tod ∧ tod ≤ 11 * 3600 + 30 * 60) ∨
      (12 * 3600 + 30 * 60 ≤ tod ∧ tod ≤ 15 * 3600))

/-- AlertEngine.check_volume_alerts: empty outside trading hours; inside
them, a surge alert when the volume ratio is at or above the stock
multiplier, and a drop alert when the ratio is at or below 0.5.  fmt
stands for _format_volume_alert_message (stock, volume data, label). -/
def checkVolumeAlerts (fmt : MonitoredStock → VolumeData → String → String)
    (stock : MonitoredStock) (vd : VolumeData) (now : ℕ) : List Alert :=
  if ¬ isTradingHours now then []
  else
    let surgeAlerts :=
      if stock.volume_threshold_multiplier ≤ vd.ratioValue then
        [Alert.mk stock.symbol "volume" (fmt stock vd "急増") none
          (some vd.current_volume)
          (some ((vd.average_volume : ℚ) * stock.volume_threshold_multiplier))
          false none]
      else []
    let dropAlerts :=
      if vd.ratioValue ≤ 1 / 2 then
        [Alert.mk stock.symbol "volume" (fmt stock vd "急減") none
          (some vd.current_volume)
          (some ((vd.average_volume : ℚ) * (1 / 2)))
          false none]
      else []
    surgeAlerts ++ dropAlerts

/-- AlertEngine._volume_history for one symbol is a list of samples;
update_volume_history appends and keeps the most recent 20. -/
def updateVolumeHistory (hist : List ℤ) (volume : ℤ) : List ℤ :=
  let appended := hist ++ [volume]
  if 20 < appended.length then appended.drop (appended.length - 20) else appended

/-- AlertEngine.calculate_average_volume: 0 for an absent or empty
history, otherwise the floor of sum over length (Python integer
division). -/
def calculateAverageVolume (hist : Option (List ℤ)) : ℤ :=
  match hist with
  | none => 0
  | some [] => 0
  | some vs => vs.sum / (vs.length : ℤ)

/-- AlertEngine.create_volume_data. -/
def createVolumeData (hist : Option (List ℤ)) (symbol : String)
    (current_volume : ℤ) : VolumeData :=
  ⟨symbol, current_volume, calculateAverageVolume hist⟩

/-- AlertEngine.process_alerts: for each alert, when the dedup history
allows its key, attempt delivery; on success mark it sent at the current
time and record the key, on a delivery failure keep it in the output with
is_sent false and do not record the key; a deduplicated alert is dropped.
Afterwards entries older than 24 hours are purged from the history.
deliver stands for the Discord delivery call (false = raised). -/
def processAlerts (deliver : Alert → Bool) (showQ : Option ℚ → String)
    (hist : AlertHist) (alerts : List Alert) (now : ℤ) :
    List Alert × AlertHist :=
  let step :=
    alerts.foldl
      (fun (acc : List Alert × AlertHist) a =>
        let key := alertKey showQ a
        if shouldSendAlert acc.2 key now then
          if deliver a then
            (acc.1 ++ [{ a with is_sent := true, sent_at := some now }],
              recordAlert acc.2 key now)
          else
            (acc.1 ++ [{ a with is_sent := false }], acc.2)
        else acc)
      ([], hist)
  (step.1, cleanupOldRecords step.2 now)

/-! Interactions handler, from handlers/interactions_handler.py.
Hex decoding (bytes.fromhex) and Ed25519 verification (the PyNaCl verify
call) are uninterpreted function parameters: a theorem quantified over
them holds no matter what those routines would compute, which is how the
statement captures that they are never consulted. -/

/-- An HTTP response of the Lambda handler. -/
structure HttpResponse where
  statusCode : ℕ
  body : String
deriving Repr, DecidableEq

/-- The header-extraction loop of handle_interaction: header names are
compared lowercased; a later duplicate overwrites an earlier one; a
missing header leaves the empty string.  Returns (signature, timestamp). -/
def extractSignatureHeaders (headers : List (String × String)) : String × String :=
  headers.foldl
    (fun acc kv =>
      let keyLower := strLower kv.1
      if keyLower = "x-signature-ed25519" then (kv.2, acc.2)
      else if keyLower = "x-signature-timestamp" then (acc.1, kv.2)
      else acc)
    ("", "")

/-- InteractionsHandler.verify_signature: reject unless the signature is
exactly 128 characters, then hex-decode it (None = ValueError), then run
Ed25519 verification of the timestamp concatenated with the raw body
(false = BadSignatureError or any other exception). -/
def verifySignature (hexDecode : String → Option (List ℕ))
    (cryptoVerify : List ℕ → String → Bool)
    (signature timestamp body : String) : Bool :=
  if signature.length ≠ 128 then false
  else
    match hexDecode signature with
    | none => false
    | some sigBytes => cryptoVerify sigBytes (timestamp ++ body)

/-- InteractionsHandler.handle_interaction up to signature verification:
extract the two signature headers case-insensitively, verify, and on
failure answer 401 with the fixed JSON error body; only a verified
request reaches parsing and routing, which the route parameter stands
for. -/
def handleInteraction (hexDecode : String → Option (List ℕ))
    (cryptoVerify : List ℕ → String → Bool)
    (route : String → HttpResponse)
    (headers : List (String × String)) (body : String) : HttpResponse :=
  let sigTs := extractSignatureHeaders headers
  if verifySignature hexDecode cryptoVerify sigTs.1 sigTs.2 body then route body
  else ⟨401, "\x7b\"error\": \"Invalid signature\"\x7d"⟩

/-! Legacy command processor, from handlers/command_processor.py.
The regex pattern table is an uninterpreted matcher parameter mapping a
trimmed message to a command type and parameter map (None = no pattern
matched, mirroring the loop falling through); the command handlers are an
uninterpreted exec parameter returning the handler result or the text of
a raised exception. -/

/-- The Command record (the uuid command_id and executed_at are not
modeled; parameters are a string-to-string association list). -/
structure CommandR where
  user_id : String
  channel_id : String
  command_type : String
  parameters : List (String × String)
  status : String
  result : Option String
  error_message : Option String
deriving Repr, DecidableEq

/-- CommandParser.parse_command: strip the message, fail on a message not
starting with the bang prefix, otherwise consult the pattern table and
fail when nothing matches; on success build a pending Command. -/
def parseCommand (matcher : String → Option (String × List (String × String)))
    (message user_id channel_id : String) :
    Except String CommandR :=
  let m := strTrim message
  if ¬ startsWithBang m then Except.error "コマンドではありません"
  else
    match matcher m with
    | some (ctype, params) =>
        Except.ok ⟨user_id, channel_id, ctype, params, "pending", none, none⟩
    | none => Except.error ("不明なコマンドです: " ++ m)

/-- CommandPermissionManager.check_permission: the channel restriction
applies when the allowed-channel set is nonempty; the admin restriction
applies to the add, remove and alert command types when the admin set is
nonempty. -/
def checkPermission (admin_users allowed_channels : List String)
    (cmd : CommandR) : Except String Unit :=
  if allowed_channels ≠ [] ∧ cmd.channel_id ∉ allowed_channels then
    Except.error ("このチャンネルではコマンドを実行できません: " ++ cmd.channel_id)
  else if (cmd.command_type = "add" ∨ cmd.command_type = "remove" ∨
      cmd.command_type = "alert") ∧
      admin_users ≠ [] ∧ cmd.user_id ∉ admin_users then
    Except.error ("管理者権限が必要です: " ++ cmd.command_type)
  else Except.ok ()

/-- The synthetic error Command built by the permission and generic
exception handlers of process_message. -/
def errorCommand (user_id channel_id msg : String) : CommandR :=
  ⟨user_id, channel_id, "error", [], "failed", none, some msg⟩

/-- CommandProcessor.process_message: a CommandParseError returns None;
a CommandPermissionError returns a synthetic error Command carrying the
message; a successful parse and permission check runs the handler,
completing the command on success, and any handler exception is caught by
the generic handler, which also returns a synthetic error Command. -/
def processMessage (matcher : String → Option (String × List (String × String)))
    (admin_users allowed_channels : List String)
    (exec : CommandR → Except String String)
    (message user_id channel_id : String) : Option CommandR :=
  match parseCommand matcher message user_id channel_id with
  | Except.error _ => none
  | Except.ok cmd =>
      match checkPermission admin_users allowed_channels cmd with
      | Except.error e => some (errorCommand user_id channel_id e)
      | Except.ok _ =>
          match exec { cmd with status := "processing" } with
          | Except.ok r =>
              some { cmd with status := "completed", result := some r }
          | Except.error e =>
              some (errorCommand user_id channel_id
                ("内部エラーが発生しました: " ++ e))

/-! Portfolio service, from services/portfolio_service.py (the in-memory
service defined in the source tree).  The market-data provider call
get_current_price is an uninterpreted fetch parameter returning the
current price or None for any raised exception. -/

/-- The in-memory storage of PortfolioService: the portfolios dict and
the holdings dict keyed by portfolio id. -/
structure PortfolioStore where
  portfolios : List PortfolioRec
  holdings : List (String × List PortfolioHolding)
deriving Repr, DecidableEq

/-- PortfolioService.get_user_portfolios: active portfolios of the
user. -/
def getUserPortfolios (st : PortfolioStore) (user_id : String) :
    List PortfolioRec :=
  st.portfolios.filter (fun p => p.user_id = user_id ∧ p.is_active = true)

/-- PortfolioService.get_portfolio_holdings: the active holdings stored
under the portfolio id (empty for an unknown id). -/
def getPortfolioHoldings (st : PortfolioStore) (portfolio_id : String) :
    List PortfolioHolding :=
  (((st.holdings.find? (fun kv => kv.1 = portfolio_id)).map Prod.snd).getD []).filter
    (fun h => h.is_active = true)

/-- PortfolioService.remove_holding: logical delete, clearing is_active of
the holding carrying the given id. -/
def removeHolding (st : PortfolioStore) (holding_id : String) : PortfolioStore :=
  { st with
    holdings := st.holdings.map (fun kv =>
      (kv.1, kv.2.map (fun h =>
        if h.holding_id = holding_id then { h with is_active := false } else h))) }

/-- PortfolioService.calculate_portfolio_pnl, the per-holding loop: one
ProfitLossCalculation per active holding; when the price fetch raises
(fetch returns None) the purchase price of that holding substitutes for
the current price. -/
def calculatePortfolioPnlLines (fetch : String → Option ℚ)
    (activeHoldings : List PortfolioHolding) : List ProfitLossCalculation :=
  activeHoldings.map (fun h =>
    match fetch h.symbol with
    | some price => ProfitLossCalculation.calculate h price
    | none => ProfitLossCalculation.calculate h h.purchase_price)

/-- PortfolioService.calculate_portfolio_pnl: None for an unknown
portfolio, otherwise the report over the active holdings. -/
def calculatePortfolioPnl (fetch : String → Option ℚ) (st : PortfolioStore)
    (portfolio_id : String) : Option PortfolioProfitLossReport :=
  match st.portfolios.find? (fun p => p.portfolio_id = portfolio_id) with
  | none => none
  | some p =>
      some (create_report p
        (calculatePortfolioPnlLines fetch (getPortfolioHoldings st portfolio_id)))

/-- The scan of handle_portfolio_remove_command: the first active holding
matching the symbol case-insensitively, walking the user portfolios in
order (the source breaks out of both loops after the first hit). -/
def findFirstSymbolHolding (st : PortfolioStore) (ps : List PortfolioRec)
    (symbol : String) : Option PortfolioHolding :=
  match ps with
  | [] => none
  | p :: rest =>
      match (getPortfolioHoldings st p.portfolio_id).find?
          (fun h => strUpper h.symbol = strUpper symbol) with
      | some h => some h
      | none => findFirstSymbolHolding st rest symbol

/-- PortfolioCommandHandler.handle_portfolio_remove_command: an error
message when the user has no portfolio, otherwise remove the first
matching holding and confirm with the symbol, or report the symbol as not
found.  Returns the reply text and the updated store. -/
def handlePortfolioRemoveCommand (st : PortfolioStore)
    (user_id symbol : String) : String × PortfolioStore :=
  let ps := getUserPortfolios st user_id
  if ps.isEmpty then ("❌ ポートフォリオが見つかりません", st)
  else
    match findFirstSymbolHolding st ps symbol with
    | some h =>
        ("✅ " ++ symbol ++ " をポートフォリオから削除しました",
          removeHolding st h.holding_id)
    | none => ("❌ 銘柄 " ++ symbol ++ " が見つかりませんでした", st)

/-! Theorems -/

/-- C1: for every holding with positive quantity, purchase price and
current price, ProfitLossCalculation.calculate returns purchase_value =
purchase price times quantity, current_value = current price times
quantity, unrealized_pnl = current_value minus purchase_value and
unrealized_pnl_percent = unrealized_pnl over purchase_value times 100, in
exact arithmetic; for 100 shares bought at 2500 with current price 3000
the unrealized pnl is 50000 and the percent is 20. -/
theorem pnl_calculate_formulas (hid pid sym : String) (act : Bool)
    (q : ℤ) (p c : ℚ) (hq : 0 < q) (hp : 0 < p) (hc : 0 < c) :
    (ProfitLossCalculation.calculate ⟨hid, pid, sym, q, p, act⟩ c).purchase_value
        = p * (q : ℚ) ∧
    (ProfitLossCalculation.calculate ⟨hid, pid, sym, q, p, act⟩ c).current_value
        = c * (q : ℚ) ∧
    (ProfitLossCalculation.calculate ⟨hid, pid, sym, q, p, act⟩ c).unrealized_pnl
        = c * (q : ℚ) - p * (q : ℚ) ∧
    (ProfitLossCalculation.calculate ⟨hid, pid, sym, q, p, act⟩ c).unrealized_pnl_percent
        = (c * (q : ℚ) - p * (q : ℚ)) / (p * (q : ℚ)) * 100 ∧
    (ProfitLossCalculation.calculate ⟨"h1", "p1", "7203", 100, 2500, true⟩
        3000).unrealized_pnl = 50000 ∧
    (ProfitLossCalculation.calculate ⟨"h1", "p1", "7203", 100, 2500, true⟩
        3000).unrealized_pnl_percent = 20 :=
  ⟨rfl, rfl, rfl, rfl, by norm_num [ProfitLossCalculation.calculate],
    by norm_num [ProfitLossCalculation.calculate]⟩

/-- Witness for pnl_calculate_formulas at quantity 100, purchase price
2500, current price 3000. -/
theorem pnl_calculate_formulas_witness :
    (0 < (100 : ℤ) ∧ 0 < (2500 : ℚ) ∧ 0 < (3000 : ℚ)) ∧
    ((ProfitLossCalculation.calculate ⟨"h1", "p1", "7203", 100, 2500, true⟩
        3000).purchase_value = 2500 * ((100 : ℤ) : ℚ) ∧
      (ProfitLossCalculation.calculate ⟨"h1", "p1", "7203", 100, 2500, true⟩
        3000).current_value = 3000 * ((100 : ℤ) : ℚ) ∧
      (ProfitLossCalculation.calculate ⟨"h1", "p1", "7203", 100, 2500, true⟩
        3000).unrealized_pnl = 3000 * ((100 : ℤ) : ℚ) - 2500 * ((100 : ℤ) : ℚ) ∧
      (ProfitLossCalculation.calculate ⟨"h1", "p1", "7203", 100, 2500, true⟩
        3000).unrealized_pnl_percent =
        (3000 * ((100 : ℤ) : ℚ) - 2500 * ((100 : ℤ) : ℚ)) /
          (2500 * ((100 : ℤ) : ℚ)) * 100 ∧
      (ProfitLossCalculation.calculate ⟨"h1", "p1", "7203", 100, 2500, true⟩
        3000).unrealized_pnl = 50000 ∧
      (ProfitLossCalculation.calculate ⟨"h1", "p1", "7203", 100, 2500, true⟩
        3000).unrealized_pnl_percent = 20) :=
  ⟨⟨by decide, by norm_num, by norm_num⟩,
    pnl_calculate_formulas "h1" "p1" "7203" true 100 2500 3000
      (by decide) (by norm_num) (by norm_num)⟩

/-- C2: in calculate_portfolio_pnl the report has exactly one line per
active holding; a holding whose price fetch raises still gets a line, in
which the current price is its own purchase price, so the unrealized pnl
and percent of that line are 0; and the holdings of a returned report are
exactly the computed lines. -/
theorem pnl_report_error_substitution (fetch : String → Option ℚ)
    (hs : List PortfolioHolding) :
    (calculatePortfolioPnlLines fetch hs).length = hs.length ∧
    (∀ (i : ℕ) (h : PortfolioHolding), hs[i]? = some h → fetch h.symbol = none →
      ∃ l, (calculatePortfolioPnlLines fetch hs)[i]? = some l ∧
        l.holding_id = h.holding_id ∧
        l.current_price = h.purchase_price ∧
        l.unrealized_pnl = 0 ∧
        l.unrealized_pnl_percent = 0) ∧
    (∀ (i : ℕ) (h : PortfolioHolding), hs[i]? = some h →
      ∃ l, (calculatePortfolioPnlLines fetch hs)[i]? = some l ∧
        l.holding_id = h.holding_id) ∧
    (∀ st pid r, calculatePortfolioPnl fetch st pid = some r →
      r.holdings = calculatePortfolioPnlLines fetch (getPortfolioHoldings st pid)) := by
  refine ⟨List.length_map _ _, ?_, ?_, ?_⟩
  · intro i h hget hfetch
    refine ⟨ProfitLossCalculation.calculate h h.purchase_price, ?_, rfl, rfl, ?_, ?_⟩
    · simp [calculatePortfolioPnlLines, hget, hfetch]
    · simp [ProfitLossCalculation.calculate]
    · simp [ProfitLossCalculation.calculate]
  · intro i h hget
    match hf : fetch h.symbol with
    | some price =>
        exact ⟨ProfitLossCalculation.calculate h price,
          by simp [calculatePortfolioPnlLines, hget, hf], rfl⟩
    | none =>
        exact ⟨ProfitLossCalculation.calculate h h.purchase_price,
          by simp [calculatePortfolioPnlLines, hget, hf], rfl⟩
  · intro st pid r hr
    unfold calculatePortfolioPnl at hr
    cases hfind : st.portfolios.find? (fun p => p.portfolio_id = pid) with
    | none => rw [hfind] at hr; cases hr
    | some p => rw [hfind] at hr; cases hr; rfl

/-- Witness for pnl_report_error_substitution: a single active holding
whose fetch always raises. -/
theorem pnl_report_error_substitution_witness :
    ∃ l, (calculatePortfolioPnlLines (fun _ => none)
        [⟨"h1", "p1", "7203", 100, 2500, true⟩])[0]? = some l ∧
      l.holding_id = "h1" ∧ l.current_price = 2500 ∧
      l.unrealized_pnl = 0 ∧ l.unrealized_pnl_percent = 0 :=
  (pnl_report_error_substitution (fun _ => none)
    [⟨"h1", "p1", "7203", 100, 2500, true⟩]).2.1 0
    ⟨"h1", "p1", "7203", 100, 2500, true⟩ rfl rfl

/-- C3: a request whose extracted Ed25519 signature header is not exactly
128 characters long is rejected by verify_signature for every possible
behavior of hex decoding and cryptographic verification (so neither is
consulted), and handle_interaction answers it with status 401 and the
fixed invalid-signature JSON body for every possible routing of the body
(so the body is not processed further). -/
theorem signature_length_rejects (hexDecode : String → Option (List ℕ))
    (cryptoVerify : List ℕ → String → Bool) (route : String → HttpResponse)
    (headers : List (String × String)) (body : String)
    (hlen : (extractSignatureHeaders headers).1.length ≠ 128) :
    verifySignature hexDecode cryptoVerify (extractSignatureHeaders headers).1
        (extractSignatureHeaders headers).2 body = false ∧
    handleInteraction hexDecode cryptoVerify route headers body =
      ⟨401, "\x7b\"error\": \"Invalid signature\"\x7d"⟩ := by
  have h1 : verifySignature hexDecode cryptoVerify
      (extractSignatureHeaders headers).1
      (extractSignatureHeaders headers).2 body = false := by
    unfold verifySignature
    simp [hlen]
  refine ⟨h1, ?_⟩
  unfold handleInteraction
  simp [h1]

/-- Witness for signature_length_rejects: a request carrying a 3-character
signature header. -/
theorem signature_length_rejects_witness :
    (extractSignatureHeaders
        [("X-Signature-Ed25519", "abc"), ("X-Signature-Timestamp", "1")]).1.length
        ≠ 128 ∧
    (verifySignature (fun _ => none) (fun _ _ => true)
        (extractSignatureHeaders
          [("X-Signature-Ed25519", "abc"), ("X-Signature-Timestamp", "1")]).1
        (extractSignatureHeaders
          [("X-Signature-Ed25519", "abc"), ("X-Signature-Timestamp", "1")]).2
        "body" = false ∧
      handleInteraction (fun _ => none) (fun _ _ => true)
        (fun _ => ⟨200, "ok"⟩)
        [("X-Signature-Ed25519", "abc"), ("X-Signature-Timestamp", "1")]
        "body" = ⟨401, "\x7b\"error\": \"Invalid signature\"\x7d"⟩) :=
  ⟨by decide,
    signature_length_rejects (fun _ => none) (fun _ _ => true)
      (fun _ => ⟨200, "ok"⟩)
      [("X-Signature-Ed25519", "abc"), ("X-Signature-Timestamp", "1")]
      "body" (by decide)⟩

/-- C4: the trading-hours gate holds exactly on a Monday-to-Friday Japan
day (nine hours ahead of the naive UTC clock) inside 09:00-11:30 or
12:30-15:00; check_volume_alerts returns the empty list whenever the gate
is closed; check_price_alerts carries no time argument at all, and a
breached upper threshold emits a price_upper alert unconditionally. -/
theorem volume_gate_price_ungated
    (fmtV : MonitoredStock → VolumeData → String → String)
    (fmtP : MonitoredStock → StockPrice → String → ℚ → String)
    (stock : MonitoredStock) (vd : VolumeData) (cp : StockPrice) (now : ℕ) :
    (isTradingHours now = true ↔
      ((now + 9 * 3600) / 86400 % 7 < 5 ∧
        ((9 * 3600 ≤ (now + 9 * 3600) % 86400 ∧
            (now + 9 * 3600) % 86400 ≤ 11 * 3600 + 30 * 60) ∨
          (12 * 3600 + 30 * 60 ≤ (now + 9 * 3600) % 86400 ∧
            (now + 9 * 3600) % 86400 ≤ 15 * 3600)))) ∧
    (isTradingHours now = false → checkVolumeAlerts fmtV stock vd now = []) ∧
    (∀ u, stock.price_threshold_upper = some u → u ≠ 0 → u ≤ cp.price →
      ∃ a ∈ checkPriceAlerts fmtP stock cp, a.alert_type = "price_upper") := by
  refine ⟨?_, ?_, ?_⟩
  · unfold isTradingHours
    dsimp only
    split
    · simp only [Bool.false_eq_true, false_iff]
      omega
    · simp only [decide_eq_true_eq]
      constructor
      · intro h
        exact ⟨by omega, h⟩
      · intro h
        exact h.2
  · intro h
    unfold checkVolumeAlerts
    simp [h]
  · intro u hu hne hle
    refine ⟨Alert.mk stock.symbol "price_upper" (fmtP stock cp "上限" u)
      (some cp.price) none (some u) false none, ?_, rfl⟩
    unfold checkPriceAlerts
    simp only [hu, if_pos (And.intro hne hle)]
    exact List.mem_append_left _ (List.mem_singleton.mpr rfl)

/-- Witness for volume_gate_price_ungated: 435600 seconds is 10:00 Japan
time on a Saturday, where the gate is closed and the volume check is
empty; a stock with upper threshold 2000 at price 2500 raises a
price_upper alert. -/
theorem volume_gate_price_ungated_witness :
    isTradingHours 435600 = false ∧
    checkVolumeAlerts (fun _ _ _ => "")
      ⟨"7203", "Toyota", "TSE", some 2000, none, 2, true⟩
      ⟨"7203", 100, 50⟩ 435600 = [] ∧
    ∃ a ∈ checkPriceAlerts (fun _ _ _ _ => "")
        ⟨"7203", "Toyota", "TSE", some 2000, none, 2, true⟩
        ⟨"7203", 2500, none, none, none, none, none, none, none⟩,
      a.alert_type = "price_upper" :=
  ⟨by decide,
    (volume_gate_price_ungated (fun _ _ _ => "") (fun _ _ _ _ => "")
      ⟨"7203", "Toyota", "TSE", some 2000, none, 2, true⟩
      ⟨"7203", 100, 50⟩
      ⟨"7203", 2500, none, none, none, none, none, none, none⟩
      435600).2.1 (by decide),
    (volume_gate_price_ungated (fun _ _ _ => "") (fun _ _ _ _ => "")
      ⟨"7203", "Toyota", "TSE", some 2000, none, 2, true⟩
      ⟨"7203", 100, 50⟩
      ⟨"7203", 2500, none, none, none, none, none, none, none⟩
      435600).2.2 2000 rfl (by norm_num) (by norm_num)⟩

/-- C9: a symbol with no recorded volume history has average volume 0,
the derived volume ratio is 0 for any current volume, and during trading
hours the volume check on that data emits no surge alert for any positive
multiplier but emits exactly the drop alert. -/
theorem empty_history_drop_alert
    (fmtV : MonitoredStock → VolumeData → String → String)
    (hist : Option (List ℤ)) (symbol : String) (cv : ℤ)
    (stock : MonitoredStock) (now : ℕ)
    (hhist : hist = none ∨ hist = some [])
    (hmult : 0 < stock.volume_threshold_multiplier)
    (hgate : isTradingHours now = true) :
    calculateAverageVolume hist = 0 ∧
    (createVolumeData hist symbol cv).ratioValue = 0 ∧
    checkVolumeAlerts fmtV stock (createVolumeData hist symbol cv) now =
      [Alert.mk stock.symbol "volume"
        (fmtV stock (createVolumeData hist symbol cv) "急減") none
        (some cv) (some 0) false none] := by
  have havg : calculateAverageVolume hist = 0 := by
    rcases hhist with h | h <;> simp [calculateAverageVolume, h]
  have hcvd : createVolumeData hist symbol cv = ⟨symbol, cv, 0⟩ := by
    simp [createVolumeData, havg]
  have hzero : (VolumeData.mk symbol cv 0).ratioValue = 0 := by
    unfold VolumeData.ratioValue
    simp
  refine ⟨havg, by rw [hcvd]; exact hzero, ?_⟩
  rw [hcvd]
  have hs : ¬ (stock.volume_threshold_multiplier ≤
      (VolumeData.mk symbol cv 0).ratioValue) := by
    rw [hzero]
    exact not_le.mpr hmult
  have hd : (VolumeData.mk symbol cv 0).ratioValue ≤ 1 / 2 := by
    rw [hzero]
    norm_num
  simp only [checkVolumeAlerts, hgate, not_true_eq_false, if_false,
    if_neg hs, if_pos hd, List.nil_append]
  norm_num

/-- Witness for empty_history_drop_alert: an absent history, a multiplier
of 2 and 3600 seconds, which is 10:00 Japan time on a Monday. -/
theorem empty_history_drop_alert_witness :
    ((none : Option (List ℤ)) = none ∨ (none : Option (List ℤ)) = some []) ∧
    (0 : ℚ) < 2 ∧ isTradingHours 3600 = true ∧
    (calculateAverageVolume none = 0 ∧
      (createVolumeData none "9984" 100).ratioValue = 0 ∧
      checkVolumeAlerts (fun _ _ _ => "")
        ⟨"9984", "SoftBank", "TSE", none, none, 2, true⟩
        (createVolumeData none "9984" 100) 3600 =
        [Alert.mk "9984" "volume" "" none (some 100) (some 0) false none]) :=
  ⟨Or.inl rfl, by norm_num, by decide,
    empty_history_drop_alert (fun _ _ _ => "") none "9984" 100
      ⟨"9984", "SoftBank", "TSE", none, none, 2, true⟩ 3600
      (Or.inl rfl) (by norm_num) (by decide)⟩

/-- C10: processing an eligible alert whose delivery fails returns it with
is_sent false and sent_at still unset, leaves the dedup history without a
fresh entry for its key (only the 24-hour cleanup runs), and the key is
still eligible for an identical alert processed immediately afterwards. -/
theorem delivery_failure_not_recorded (deliver : Alert → Bool)
    (showQ : Option ℚ → String) (hist : AlertHist) (a : Alert) (now : ℤ)
    (hsent : a.sent_at = none)
    (helig : shouldSendAlert hist (alertKey showQ a) now = true)
    (hfail : deliver a = false) :
    processAlerts deliver showQ hist [a] now =
      ([{ a with is_sent := false }], cleanupOldRecords hist now) ∧
    ({ a with is_sent := false } : Alert).sent_at = none ∧
    shouldSendAlert (cleanupOldRecords hist now) (alertKey showQ a) now = true := by
  refine ⟨?_, hsent, ?_⟩
  · unfold processAlerts
    simp [helig, hfail]
  · unfold shouldSendAlert cleanupOldRecords
    unfold shouldSendAlert at helig
    cases hk : hist (alertKey showQ a) with
    | none => simp [hk]
    | some t =>
        rw [hk] at helig
        simp only [decide_eq_true_eq] at helig
        by_cases hold : t < now - 24 * 3600
        · dsimp only
          rw [if_pos hold]
        · dsimp only
          rw [if_neg hold]
          simp only [decide_eq_true_eq]
          exact helig

/-- Witness for delivery_failure_not_recorded: an empty history and a
delivery routine that always fails. -/
theorem delivery_failure_not_recorded_witness :
    (Alert.mk "7203" "price_upper" "msg" (some 3100) none (some 3000)
        false none).sent_at = none ∧
    shouldSendAlert (fun _ => none)
      (alertKey (fun _ => "t") (Alert.mk "7203" "price_upper" "msg"
        (some 3100) none (some 3000) false none)) 0 = true ∧
    (fun _ => false : Alert → Bool) (Alert.mk "7203" "price_upper" "msg"
        (some 3100) none (some 3000) false none) = false ∧
    (processAlerts (fun _ => false) (fun _ => "t") (fun _ => none)
        [Alert.mk "7203" "price_upper" "msg" (some 3100) none (some 3000)
          false none] 0 =
      ([Alert.mk "7203" "price_upper" "msg" (some 3100) none (some 3000)
          false none],
        cleanupOldRecords (fun _ => none) 0) ∧
      (Alert.mk "7203" "price_upper" "msg" (some 3100) none (some 3000)
        false none).sent_at = none ∧
      shouldSendAlert (cleanupOldRecords (fun _ => none) 0)
        (alertKey (fun _ => "t") (Alert.mk "7203" "price_upper" "msg"
          (some 3100) none (some 3000) false none)) 0 = true) :=
  ⟨rfl, rfl, rfl,
    delivery_failure_not_recorded (fun _ => false) (fun _ => "t")
      (fun _ => none)
      (Alert.mk "7203" "price_upper" "msg" (some 3100) none (some 3000)
        false none) 0 rfl rfl rfl⟩

/-- Entries dropped by a filter can only lower a sliding-window count. -/
theorem countMinute_filter_le (l : List ℤ) (p : ℤ → Bool) (t : ℤ) :
    countMinute (l.filter p) t ≤ countMinute l t :=
  List.Sublist.countP_le _ (List.filter_sublist l)

/-- Moving the window endpoint later never raises the count. -/
theorem countMinute_anti (l : List ℤ) {t s : ℤ} (h : t ≤ s) :
    countMinute l s ≤ countMinute l t :=
  List.countP_mono_left (fun a _ ha => by
    simp only [decide_eq_true_eq] at ha ⊢
    omega)

/-- Appending one entry raises a window count by at most one. -/
theorem countMinute_append (l : List ℤ) (x t : ℤ) :
    countMinute (l ++ [x]) t =
      countMinute l t + (if t - 60 < x then 1 else 0) := by
  unfold countMinute
  simp [List.countP_append, List.countP_cons]

/-- One pass through the body of check_rate_limit never blocks the user
and preserves the bound of ten recorded requests per one-minute window,
for the current and every later window endpoint. -/
theorem checkRateLimitCore_bound (requests : List ℤ) (now : ℤ)
    (hcnt : ∀ s, now ≤ s → countMinute requests s ≤ 10) :
    (checkRateLimitCore requests now).1 ≠ RLResult.suspiciousBlock ∧
    (∀ d, (checkRateLimitCore requests now).1 ≠ RLResult.blockedRemaining d) ∧
    (checkRateLimitCore requests now).2.blockedUntil = none ∧
    (∀ s, now ≤ s →
      countMinute (checkRateLimitCore requests now).2.requests s ≤ 10) := by
  have hpr : ∀ s, now ≤ s →
      countMinute (requests.filter (fun t => decide (now - 3600 < t))) s ≤ 10 :=
    fun s hs => le_trans (countMinute_filter_le _ _ _) (hcnt s hs)
  have hlm : countMinute (requests.filter (fun t => decide (now - 3600 < t))) now ≤ 10 :=
    hpr now le_rfl
  unfold checkRateLimitCore
  dsimp only
  rw [if_neg (by omega)]
  by_cases h10 : 10 ≤ countMinute (requests.filter (fun t => decide (now - 3600 < t))) now
  · rw [if_pos h10]
    exact ⟨fun h => RLResult.noConfusion h, fun d h => RLResult.noConfusion h,
      rfl, hpr⟩
  · rw [if_neg h10]
    by_cases h100 : 100 ≤ (requests.filter (fun t => decide (now - 3600 < t))).length
    · rw [if_pos h100]
      exact ⟨fun h => RLResult.noConfusion h, fun d h => RLResult.noConfusion h,
        rfl, hpr⟩
    · rw [if_neg h100]
      refine ⟨fun h => RLResult.noConfusion h, fun d h => RLResult.noConfusion h,
        rfl, ?_⟩
      intro s hs
      rw [countMinute_append]
      have h2 : countMinute (requests.filter (fun t => decide (now - 3600 < t))) s ≤
          countMinute (requests.filter (fun t => decide (now - 3600 < t))) now :=
        countMinute_anti _ hs
      split <;> omega

/-- Along any nondecreasing sequence of calls from an unblocked state
whose recorded requests satisfy the ten-per-window bound from some time T
at or before all the calls, no call returns the suspicious block or a
blocked-user rejection and the final state is unblocked. -/
theorem runRateLimiter_no_block_aux :
    ∀ (times : List ℤ) (st : RLState) (T : ℤ),
    st.blockedUntil = none →
    (∀ s, T ≤ s → countMinute st.requests s ≤ 10) →
    (∀ t ∈ times, T ≤ t) →
    times.Pairwise (· ≤ ·) →
    (∀ r ∈ (runRateLimiter st times).1,
      r ≠ RLResult.suspiciousBlock ∧ ∀ d, r ≠ RLResult.blockedRemaining d) ∧
    (runRateLimiter st times).2.blockedUntil = none := by
  intro times
  induction times with
  | nil =>
      intro st T hb _ _ _
      refine ⟨?_, ?_⟩
      · intro r hr
        simp [runRateLimiter] at hr
      · simpa [runRateLimiter] using hb
  | cons t ts ih =>
      intro st T hb hc hT hp
      have hstep : checkRateLimit st t = checkRateLimitCore st.requests t := by
        unfold checkRateLimit
        rw [hb]
      have hTt : T ≤ t := hT t (List.mem_cons_self _ _)
      have hcore := checkRateLimitCore_bound st.requests t
        (fun s hs => hc s (le_trans hTt hs))
      have hts : ∀ x ∈ ts, t ≤ x := (List.pairwise_cons.mp hp).1
      have hp2 : ts.Pairwise (· ≤ ·) := (List.pairwise_cons.mp hp).2
      have hih := ih (checkRateLimitCore st.requests t).2 t
        hcore.2.2.1 hcore.2.2.2 hts hp2
      constructor
      · intro r hr
        unfold runRateLimiter at hr
        rw [hstep] at hr
        dsimp only at hr
        rcases List.mem_cons.mp hr with h | h
        · rw [h]
          exact ⟨hcore.1, hcore.2.1⟩
        · exact hih.1 r h
      · unfold runRateLimiter
        rw [hstep]
        exact hih.2

/-- C6 (code bug): rejected requests are never recorded, so at most ten
requests are ever counted in any sliding one-minute window; the
suspicious-activity threshold of twenty is therefore unreachable and a
fresh rate limiter never blocks a user along any nondecreasing sequence
of calls.  In particular 25 requests in the same second yield ten allowed
results and fifteen per-minute soft rejections, with no thirty-minute
block, contradicting the claimed suspicious-activity tier. -/
theorem suspicious_block_unreachable :
    (∀ times : List ℤ, times.Pairwise (· ≤ ·) →
      (∀ r ∈ (runRateLimiter ⟨[], none⟩ times).1,
        r ≠ RLResult.suspiciousBlock ∧ ∀ d, r ≠ RLResult.blockedRemaining d) ∧
      (runRateLimiter ⟨[], none⟩ times).2.blockedUntil = none) ∧
    (runRateLimiter ⟨[], none⟩ (List.replicate 25 0)).1 =
      List.replicate 10 RLResult.allowed ++
        List.replicate 15 RLResult.limitMinute := by
  constructor
  · intro times hp
    cases times with
    | nil =>
        exact runRateLimiter_no_block_aux [] ⟨[], none⟩ 0 rfl
          (fun s _ => by simp [countMinute]) (fun t ht => absurd ht (by simp))
          List.Pairwise.nil
    | cons t ts =>
        refine runRateLimiter_no_block_aux (t :: ts) ⟨[], none⟩ t rfl
          (fun s _ => by simp [countMinute]) ?_ hp
        intro x hx
        rcases List.mem_cons.mp hx with h | h
        · rw [h]
        · exact (List.pairwise_cons.mp hp).1 x h
  · decide

/-- Witness for suspicious_block_unreachable: the 25 same-second requests
sequence is nondecreasing and produces no block. -/
theorem suspicious_block_unreachable_witness :
    (List.replicate 25 (0 : ℤ)).Pairwise (· ≤ ·) ∧
    ((∀ r ∈ (runRateLimiter ⟨[], none⟩ (List.replicate 25 (0 : ℤ))).1,
        r ≠ RLResult.suspiciousBlock ∧ ∀ d, r ≠ RLResult.blockedRemaining d) ∧
      (runRateLimiter ⟨[], none⟩
        (List.replicate 25 (0 : ℤ))).2.blockedUntil = none) :=
  ⟨by decide, suspicious_block_unreachable.1 (List.replicate 25 0) (by decide)⟩

/-- C5 counterexample: the message Hello world fails command parsing (it
does not start with the bang prefix), and process_message returns no
Command at all: the CommandParseError handler returns None rather than a
synthetic error Command, for any admin set and any handler behavior. -/
theorem parse_failure_returns_none :
    processMessage (fun _ => none) [] [] (fun _ => Except.ok "ok")
      "Hello world" "user1" "chan1" = none := by decide

/-- C5 amended: a permission failure (and, through the same handler, any
handler exception) is converted into a synthetic error Command with
command_type error and status failed carrying the message, but a parse
failure returns an absent result (None) instead of a Command. -/
theorem process_message_failure_shapes
    (matcher : String → Option (String × List (String × String)))
    (admin_users allowed_channels : List String)
    (exec : CommandR → Except String String)
    (message user_id channel_id : String) :
    (∀ e, parseCommand matcher message user_id channel_id = Except.error e →
      processMessage matcher admin_users allowed_channels exec
        message user_id channel_id = none) ∧
    (∀ cmd e, parseCommand matcher message user_id channel_id = Except.ok cmd →
      checkPermission admin_users allowed_channels cmd = Except.error e →
      processMessage matcher admin_users allowed_channels exec
          message user_id channel_id =
        some (errorCommand user_id channel_id e) ∧
      (errorCommand user_id channel_id e).command_type = "error" ∧
      (errorCommand user_id channel_id e).status = "failed" ∧
      (errorCommand user_id channel_id e).error_message = some e) := by
  constructor
  · intro e he
    unfold processMessage
    rw [he]
  · intro cmd e hok hperm
    refine ⟨?_, rfl, rfl, rfl⟩
    unfold processMessage
    rw [hok]
    dsimp only
    rw [hperm]

/-- Witness for process_message_failure_shapes: a non-admin user issuing
an add command with a configured admin set receives the synthetic error
Command. -/
theorem process_message_failure_shapes_witness :
    (parseCommand (fun _ => some ("add", [])) "!add 7203" "regular" "c" =
        Except.ok ⟨"regular", "c", "add", [], "pending", none, none⟩ ∧
      checkPermission ["admin1"] []
          ⟨"regular", "c", "add", [], "pending", none, none⟩ =
        Except.error "管理者権限が必要です: add") ∧
    (processMessage (fun _ => some ("add", [])) ["admin1"] []
        (fun _ => Except.ok "ok") "!add 7203" "regular" "c" =
      some (errorCommand "regular" "c" "管理者権限が必要です: add") ∧
      (errorCommand "regular" "c" "管理者権限が必要です: add").command_type =
        "error" ∧
      (errorCommand "regular" "c" "管理者権限が必要です: add").status =
        "failed" ∧
      (errorCommand "regular" "c" "管理者権限が必要です: add").error_message =
        some "管理者権限が必要です: add") :=
  ⟨⟨rfl, rfl⟩,
    (process_message_failure_shapes (fun _ => some ("add", [])) ["admin1"] []
      (fun _ => Except.ok "ok") "!add 7203" "regular" "c").2
      ⟨"regular", "c", "add", [], "pending", none, none⟩
      "管理者権限が必要です: add" rfl rfl⟩

/-- C7 counterexample: a user holding the same symbol twice in one
portfolio runs the portfolio remove command; the reply is the fixed
confirmation naming only the symbol (no removal count), and one of the two
active holdings of that symbol survives, so not every active holding of
the symbol was deleted. -/
theorem portfolio_remove_single_counterexample :
    (handlePortfolioRemoveCommand
        ⟨[⟨"p1", "u1", "P", none, true⟩],
          [("p1", [⟨"h1", "p1", "7203", 100, 2500, true⟩,
            ⟨"h2", "p1", "7203", 50, 2600, true⟩])]⟩ "u1" "7203").1 =
      "✅ 7203 をポートフォリオから削除しました" ∧
    (getPortfolioHoldings
        (handlePortfolioRemoveCommand
          ⟨[⟨"p1", "u1", "P", none, true⟩],
            [("p1", [⟨"h1", "p1", "7203", 100, 2500, true⟩,
              ⟨"h2", "p1", "7203", 50, 2600, true⟩])]⟩ "u1" "7203").2
        "p1").map (fun h => (h.holding_id, h.symbol)) = [("h2", "7203")] := by
  constructor
  · decide
  · decide

/-- C7 amended: when the scan finds a first active holding matching the
symbol, the handler replies with the fixed symbol-only confirmation and
the new store is exactly the logical deletion of that one holding: every
holding with its id is inactivated and every other holding is kept
unchanged in place. -/
theorem portfolio_remove_first_match (st : PortfolioStore) (uid sym : String)
    (h : PortfolioHolding)
    (hfind : findFirstSymbolHolding st (getUserPortfolios st uid) sym = some h) :
    (handlePortfolioRemoveCommand st uid sym).1 =
      "✅ " ++ sym ++ " をポートフォリオから削除しました" ∧
    (handlePortfolioRemoveCommand st uid sym).2 = removeHolding st h.holding_id ∧
    (∀ kv ∈ (removeHolding st h.holding_id).holdings, ∀ x ∈ kv.2,
      x.holding_id = h.holding_id → x.is_active = false) ∧
    (∀ (i j : ℕ) (kv : String × List PortfolioHolding) (x : PortfolioHolding),
      st.holdings[i]? = some kv → kv.2[j]? = some x →
      x.holding_id ≠ h.holding_id →
      ∃ kv2, (removeHolding st h.holding_id).holdings[i]? = some kv2 ∧
        kv2.1 = kv.1 ∧ kv2.2[j]? = some x) := by
  have hne : (getUserPortfolios st uid).isEmpty = false := by
    cases hps : getUserPortfolios st uid with
    | nil =>
        rw [hps] at hfind
        exact absurd hfind (by simp [findFirstSymbolHolding])
    | cons a l => rfl
  refine ⟨?_, ?_, ?_, ?_⟩
  · simp [handlePortfolioRemoveCommand, hne, hfind]
  · simp [handlePortfolioRemoveCommand, hne, hfind]
  · intro kv hkv x hx hid
    unfold removeHolding at hkv
    simp only [List.mem_map] at hkv
    obtain ⟨kv0, hkv0, hkveq⟩ := hkv
    rw [← hkveq] at hx
    simp only [List.mem_map] at hx
    obtain ⟨x0, hx0, hxeq⟩ := hx
    by_cases h0 : x0.holding_id = h.holding_id
    · rw [← hxeq, if_pos h0]
    · rw [← hxeq, if_neg h0] at hid
      exact absurd hid h0
  · intro i j kv x hi hj hne2
    refine ⟨(kv.1, kv.2.map fun y =>
      if y.holding_id = h.holding_id then { y with is_active := false } else y),
      ?_, rfl, ?_⟩
    · unfold removeHolding
      simp [List.getElem?_map, hi]
    · rw [List.getElem?_map, hj]
      simp only [Option.map_some']
      rw [if_neg hne2]

/-- Witness for portfolio_remove_first_match at the two-holding store: the
scan finds the first holding and the handler removes exactly it. -/
theorem portfolio_remove_first_match_witness :
    (handlePortfolioRemoveCommand
        ⟨[⟨"p1", "u1", "P", none, true⟩],
          [("p1", [⟨"h1", "p1", "7203", 100, 2500, true⟩,
            ⟨"h2", "p1", "7203", 50, 2600, true⟩])]⟩ "u1" "7203").1 =
      "✅ " ++ "7203" ++ " をポートフォリオから削除しました" ∧
    (handlePortfolioRemoveCommand
        ⟨[⟨"p1", "u1", "P", none, true⟩],
          [("p1", [⟨"h1", "p1", "7203", 100, 2500, true⟩,
            ⟨"h2", "p1", "7203", 50, 2600, true⟩])]⟩ "u1" "7203").2 =
      removeHolding
        ⟨[⟨"p1", "u1", "P", none, true⟩],
          [("p1", [⟨"h1", "p1", "7203", 100, 2500, true⟩,
            ⟨"h2", "p1", "7203", 50, 2600, true⟩])]⟩ "h1" :=
  ⟨(portfolio_remove_first_match
      ⟨[⟨"p1", "u1", "P", none, true⟩],
        [("p1", [⟨"h1", "p1", "7203", 100, 2500, true⟩,
          ⟨"h2", "p1", "7203", 50, 2600, true⟩])]⟩ "u1" "7203"
      ⟨"h1", "p1", "7203", 100, 2500, true⟩ rfl).1,
    (portfolio_remove_first_match
      ⟨[⟨"p1", "u1", "P", none, true⟩],
        [("p1", [⟨"h1", "p1", "7203", 100, 2500, true⟩,
          ⟨"h2", "p1", "7203", 50, 2600, true⟩])]⟩ "u1" "7203"
      ⟨"h1", "p1", "7203", 100, 2500, true⟩ rfl).2.1⟩

/-- C8 counterexample: a StockPrice whose symbol is lowercase with
surrounding whitespace is constructible and stores the symbol exactly as
given, not uppercased and trimmed, so construction-time symbol
normalization does not happen for every record type carrying a symbol. -/
theorem symbol_not_normalized_counterexample :
    mkStockPrice " aapl " 100 none none none none none none none =
      some ⟨" aapl ", 100, none, none, none, none, none, none, none⟩ ∧
    strTrim (strUpper " aapl ") = "AAPL" ∧
    (" aapl " : String) ≠ "AAPL" := by
  refine ⟨by decide, by decide, by decide⟩

/-- C8 amended: symbol normalization at construction time happens for
MonitoredStock and PortfolioHolding, whose stored symbol is always the
input uppercased and trimmed, while StockPrice and Alert store the symbol
exactly as given, with no normalization. -/
theorem symbol_normalization_by_type :
    (∀ (s n m : String) (up lo : Option ℚ) (mult : ℚ),
      (mkMonitoredStock s n m up lo mult).map MonitoredStock.symbol =
        (mkMonitoredStock s n m up lo mult).map (fun _ => strTrim (strUpper s))) ∧
    (∀ (hid pid s : String) (q : ℤ) (pp : ℚ),
      (mkPortfolioHolding hid pid s q pp).map PortfolioHolding.symbol =
        (mkPortfolioHolding hid pid s q pp).map (fun _ => strTrim (strUpper s))) ∧
    (∀ (s : String) (price : ℚ) (op hi lo : Option ℚ) (vol : Option ℤ)
      (pc ca cp : Option ℚ),
      (mkStockPrice s price op hi lo vol pc ca cp).map StockPrice.symbol =
        (mkStockPrice s price op hi lo vol pc ca cp).map (fun _ => s)) ∧
    (∀ (s aty msg : String) (pat : Option ℚ) (vat : Option ℤ) (tv : Option ℚ)
      (snt : Bool) (sat : Option ℤ),
      (mkAlert s aty msg pat vat tv snt sat).map Alert.symbol =
        (mkAlert s aty msg pat vat tv snt sat).map (fun _ => s)) := by
  refine ⟨?_, ?_, ?_, ?_⟩
  · intro s n m up lo mult
    unfold mkMonitoredStock
    cases hns : normalizeSymbol s with
    | none => simp
    | some s2 =>
        have hs2 : s2 = strTrim (strUpper s) := by
          unfold normalizeSymbol at hns
          by_cases hc : s = "" ∨ strTrim s = ""
          · rw [if_pos hc] at hns
            cases hns
          · rw [if_neg hc] at hns
            injection hns with hns2
            exact hns2.symm
        rw [hs2]
        dsimp only
        repeat' split
        all_goals rfl
  · intro hid pid s q pp
    unfold mkPortfolioHolding
    cases hns : normalizeSymbol s with
    | none => simp
    | some s2 =>
        have hs2 : s2 = strTrim (strUpper s) := by
          unfold normalizeSymbol at hns
          by_cases hc : s = "" ∨ strTrim s = ""
          · rw [if_pos hc] at hns
            cases hns
          · rw [if_neg hc] at hns
            injection hns with hns2
            exact hns2.symm
        rw [hs2]
        dsimp only
        repeat' split
        all_goals rfl
  · intro s price op hi lo vol pc ca cp
    unfold mkStockPrice
    repeat' split
    all_goals simp
  · intro s aty msg pat vat tv snt sat
    unfold mkAlert
    split
    · simp
    · simp

end StockBot
